import Mathlib

/-!
Shallow embedding of the `mcp-firebase` repository (files `firebase.py` and
`google-docs.py`) and proofs about its tool-call envelopes, credential
lifecycle and dispatch behavior.

Each Python tool returns a `Dict[str, Any]`; we model such dictionaries as
association lists `List (String × JVal)` over a small JSON-like value type.
External backend calls (Firebase Admin SDK, Firestore client, Google Docs /
Drive services) can either return a value or raise an exception carrying a
message; we model each backend call site as an `Except String _` outcome (or
a function producing one), universally quantified in the theorems so that
every possible backend behavior is covered.
-/

/-- JSON-like values, modelling the Python values placed in the returned
dictionaries. -/
inductive JVal where
  | null
  | jbool (b : Bool)
  | jstr (s : String)
  | jnum (n : Nat)
  | jarr (xs : List JVal)
  | jobj (fields : List (String × JVal))

/-- A Python `Optional[str]` placed directly into a result dictionary:
`None` becomes JSON null, a string stays a string. -/
def joptStr : Option String → JVal
  | some s => JVal.jstr s
  | none => JVal.null

namespace Firebase

/-- A Firebase Auth user record as surfaced by the Admin SDK
(`user.uid`, `user.email`, `user.display_name`). -/
structure UserRecord where
  uid : String
  email : Option String
  display_name : Option String
deriving DecidableEq, Repr

/-- A Firestore document snapshot: `doc.exists` and the dictionary that
`doc.to_dict()` would return. -/
structure DocSnapshot where
  exists_ : Bool
  data : List (String × JVal)

/-- Embedding of `create_user` (firebase.py lines 21-43): call
`auth.create_user(email, password)`; on success return
`{success, uid, email}`, on exception `{success: False, error: str(e)}`. -/
def create_user (email password : String) (backend : Except String UserRecord) :
    List (String × JVal) :=
  match backend with
  | .ok user =>
      [("success", JVal.jbool true), ("uid", JVal.jstr user.uid),
       ("email", joptStr user.email)]
  | .error e => [("success", JVal.jbool false), ("error", JVal.jstr e)]

/-- Embedding of `get_users` (firebase.py lines 45-58): list all user uids. -/
def get_users (backend : Except String (List String)) : List (String × JVal) :=
  match backend with
  | .ok uids =>
      [("success", JVal.jbool true), ("users", JVal.jarr (uids.map JVal.jstr))]
  | .error e => [("success", JVal.jbool false), ("error", JVal.jstr e)]

/-- Embedding of `get_user` (firebase.py lines 60-77). -/
def get_user (user_id : String) (backend : Except String UserRecord) :
    List (String × JVal) :=
  match backend with
  | .ok user =>
      [("success", JVal.jbool true),
       ("user", JVal.jobj
         [("uid", JVal.jstr user.uid), ("email", joptStr user.email),
          ("display_name", joptStr user.display_name)])]
  | .error e => [("success", JVal.jbool false), ("error", JVal.jstr e)]

/-- Embedding of `delete_user` (firebase.py lines 79-92). -/
def delete_user (user_id : String) (backend : Except String Unit) :
    List (String × JVal) :=
  match backend with
  | .ok _ =>
      [("success", JVal.jbool true),
       ("message", JVal.jstr ("User " ++ user_id ++ " deleted successfully"))]
  | .error e => [("success", JVal.jbool false), ("error", JVal.jstr e)]

/-- Embedding of the `update_params` dictionary built by `update_user`
(firebase.py lines 105-111): a key is added exactly when the corresponding
optional argument is not `None`, in source order email, display_name,
password. -/
def buildUpdateParams (email display_name password : Option String) :
    List (String × String) :=
  (match email with
   | some e => [("email", e)]
   | none => []) ++
  (match display_name with
   | some d => [("display_name", d)]
   | none => []) ++
  (match password with
   | some p => [("password", p)]
   | none => [])

/-- Embedding of `update_user` (firebase.py lines 94-126): build
`update_params` from the supplied optional arguments and pass exactly that
dictionary to `auth.update_user`. -/
def update_user (user_id : String) (email display_name password : Option String)
    (backend : List (String × String) → Except String UserRecord) :
    List (String × JVal) :=
  match backend (buildUpdateParams email display_name password) with
  | .ok user =>
      [("success", JVal.jbool true),
       ("user", JVal.jobj
         [("uid", JVal.jstr user.uid), ("email", joptStr user.email),
          ("display_name", joptStr user.display_name)])]
  | .error e => [("success", JVal.jbool false), ("error", JVal.jstr e)]

/-- Python truthiness of an `Optional[str]`: `None` and `""` are falsy.
Used for the `if action_url:` checks in `verify_email` and
`reset_password`. -/
def truthyOpt (o : Option String) : Option String :=
  match o with
  | some s => if s.isEmpty then none else some s
  | none => none

/-- Embedding of `verify_email` (firebase.py lines 128-165): fetch the user,
then generate a verification link for `user.email` with action-code settings
present exactly when `action_url` is truthy. Either call's exception is
caught by the surrounding `try`. -/
def verify_email (user_id : String) (action_url : Option String)
    (getUserCall : Except String UserRecord)
    (genLink : Option String → Option String → Except String String) :
    List (String × JVal) :=
  match getUserCall with
  | .error e => [("success", JVal.jbool false), ("error", JVal.jstr e)]
  | .ok user =>
      match genLink user.email (truthyOpt action_url) with
      | .ok link =>
          [("success", JVal.jbool true), ("email", joptStr user.email),
           ("verification_link", JVal.jstr link),
           ("message", JVal.jstr
             ("Verification email link generated for user " ++ user_id))]
      | .error e => [("success", JVal.jbool false), ("error", JVal.jstr e)]

/-- Embedding of `reset_password` (firebase.py lines 167-202). -/
def reset_password (email : String) (action_url : Option String)
    (genLink : Option String → Except String String) :
    List (String × JVal) :=
  match genLink (truthyOpt action_url) with
  | .ok link =>
      [("success", JVal.jbool true), ("email", JVal.jstr email),
       ("reset_link", JVal.jstr link),
       ("message", JVal.jstr ("Password reset link generated for " ++ email))]
  | .error e => [("success", JVal.jbool false), ("error", JVal.jstr e)]

/-- Embedding of `get_collections` (firebase.py lines 205-219). Note the
error branch prepends `"Failed to get collections: "` to `str(e)`. -/
def get_collections (backend : Except String (List String)) :
    List (String × JVal) :=
  match backend with
  | .ok cols =>
      [("success", JVal.jbool true),
       ("collections", JVal.jarr (cols.map JVal.jstr)),
       ("count", JVal.jnum cols.length)]
  | .error e =>
      [("success", JVal.jbool false),
       ("error", JVal.jstr ("Failed to get collections: " ++ e))]

/-- Embedding of `get_documents` (firebase.py lines 221-235). Note the error
branch prepends `"Failed to get documents from collection {collection_id}: "`
to `str(e)`. -/
def get_documents (collection_id : String)
    (backend : Except String (List String)) : List (String × JVal) :=
  match backend with
  | .ok docs =>
      [("success", JVal.jbool true),
       ("documents", JVal.jarr (docs.map JVal.jstr)),
       ("count", JVal.jnum docs.length)]
  | .error e =>
      [("success", JVal.jbool false),
       ("error", JVal.jstr
         ("Failed to get documents from collection " ++ collection_id ++ ": " ++ e))]

/-- Embedding of `get_document` (firebase.py lines 237-250): on a successful
backend call return `{"success": True, "data": doc.to_dict() if doc.exists
else None}`. -/
def get_document (collection_id document_id : String)
    (backend : Except String DocSnapshot) : List (String × JVal) :=
  match backend with
  | .ok doc =>
      [("success", JVal.jbool true),
       ("data", if doc.exists_ then JVal.jobj doc.data else JVal.null)]
  | .error e => [("success", JVal.jbool false), ("error", JVal.jstr e)]

/-- Embedding of `create_document` (firebase.py lines 252-265). -/
def create_document (collection_id document_id : String)
    (data : List (String × JVal)) (backend : Except String Unit) :
    List (String × JVal) :=
  match backend with
  | .ok _ =>
      [("success", JVal.jbool true),
       ("message", JVal.jstr ("Document " ++ document_id ++ " created successfully"))]
  | .error e => [("success", JVal.jbool false), ("error", JVal.jstr e)]

/-- Embedding of `update_document` (firebase.py lines 267-280). -/
def update_document (collection_id document_id : String)
    (data : List (String × JVal)) (backend : Except String Unit) :
    List (String × JVal) :=
  match backend with
  | .ok _ =>
      [("success", JVal.jbool true),
       ("message", JVal.jstr ("Document " ++ document_id ++ " updated successfully"))]
  | .error e => [("success", JVal.jbool false), ("error", JVal.jstr e)]

/-- Embedding of `delete_document` (firebase.py lines 282-295). -/
def delete_document (collection_id document_id : String)
    (backend : Except String Unit) : List (String × JVal) :=
  match backend with
  | .ok _ =>
      [("success", JVal.jbool true),
       ("message", JVal.jstr ("Document " ++ document_id ++ " deleted successfully"))]
  | .error e => [("success", JVal.jbool false), ("error", JVal.jstr e)]

end Firebase

/-- A key of a result dictionary other than `success` and `error`, i.e. part
of the success payload. -/
def isPayloadKey (k : String) : Bool :=
  k ≠ "success" && k ≠ "error"

/-- A returned dictionary has at least one payload field. -/
def hasPayloadKey (d : List (String × JVal)) : Bool :=
  d.any fun p => isPayloadKey p.1

/-- Well-formedness of a tool-call envelope: the `success` flag is a boolean;
when it is `true` there is no `error` field and at least one payload field;
when it is `false` there is an `error` field and no payload field. -/
def wellFormedEnvelope (d : List (String × JVal)) : Bool :=
  match d.lookup "success" with
  | some (JVal.jbool true) => (d.lookup "error").isNone && hasPayloadKey d
  | some (JVal.jbool false) => (d.lookup "error").isSome && !hasPayloadKey d
  | _ => false

/-- The error field of a returned dictionary, when present as a string. -/
def errorField (d : List (String × JVal)) : Option JVal :=
  d.lookup "error"

namespace GoogleDocs

/-- OAuth2 credential record as held by `google.oauth2.credentials.Credentials`:
an access token, an expiry timestamp and an optional refresh token. Timestamps
are modelled as natural numbers. -/
structure Creds where
  token : Option String
  expiry : Option Nat
  refresh_token : Option String
deriving DecidableEq, Repr

/-- The `creds.expired` property: true when an expiry is set and it is not in
the future. -/
def Creds.expiredAt (c : Creds) (now : Nat) : Bool :=
  match c.expiry with
  | some t => t ≤ now
  | none => false

/-- The `creds.valid` property: an access token is present and the record is
not expired. -/
def Creds.validAt (c : Creds) (now : Nat) : Bool :=
  c.token.isSome && !(c.expiredAt now)

/-- Observable side-effecting steps taken by `get_credentials`: a call to
`creds.refresh(Request())`, a run of the interactive
`InstalledAppFlow.run_local_server` consent flow, and a write of the token
pickle file. -/
inductive AcqStep where
  | refreshCall
  | runFlow
  | writeToken
deriving DecidableEq, Repr

/-- Number of writes to the persisted token file in a trace. -/
def countWrites (tr : List AcqStep) : Nat :=
  tr.countP fun s => s == AcqStep.writeToken

/-- Embedding of `get_credentials` (google-docs.py lines 20-44).

Inputs: the current time, the stored token-file content (`none` when the file
does not exist), the outcome of `creds.refresh(Request())` as a function of
the stored record, and the outcome of the interactive consent flow. The
result pairs the returned credentials (or the uncaught exception, since
`get_credentials` has no `try`/`except` of its own) with the trace of
side-effecting steps performed, in order. -/
def get_credentials (now : Nat) (stored : Option Creds)
    (refreshCall : Creds → Except String Creds)
    (flowCall : Except String Creds) :
    Except String Creds × List AcqStep :=
  match stored with
  | some c =>
      if c.validAt now then (.ok c, [])
      else if c.expiredAt now && c.refresh_token.isSome then
        match refreshCall c with
        | .ok c' => (.ok c', [AcqStep.refreshCall, AcqStep.writeToken])
        | .error e => (.error e, [AcqStep.refreshCall])
      else
        match flowCall with
        | .ok c' => (.ok c', [AcqStep.runFlow, AcqStep.writeToken])
        | .error e => (.error e, [AcqStep.runFlow])
  | none =>
      match flowCall with
      | .ok c' => (.ok c', [AcqStep.runFlow, AcqStep.writeToken])
      | .error e => (.error e, [AcqStep.runFlow])

/-- A Google Docs document as returned by `documents().get(...)`: the fields
the tool reads via `doc.get(...)`, each possibly absent. -/
structure GDoc where
  documentId : Option String
  title : Option String
  body : Option JVal
  revisionId : Option String

/-- Embedding of the google-docs `get_document` tool (google-docs.py lines
57-80): obtain the Docs service (credential acquisition may itself fail, and
that failure is caught by the tool's `try`), fetch the document, wrap in the
envelope. -/
def get_document (document_id : String) (credsCall : Except String Unit)
    (fetch : Except String GDoc) : List (String × JVal) :=
  match credsCall with
  | .error e => [("success", JVal.jbool false), ("error", JVal.jstr e)]
  | .ok _ =>
      match fetch with
      | .ok doc =>
          [("success", JVal.jbool true),
           ("document_id", joptStr doc.documentId),
           ("title", joptStr doc.title),
           ("body", doc.body.getD JVal.null),
           ("revision_id", joptStr doc.revisionId)]
      | .error e => [("success", JVal.jbool false), ("error", JVal.jstr e)]

/-- Backend calls the google-docs `create_document` tool can make against the
Drive and Docs services. `driveDelete` is the Drive deletion operation: it is
part of the backend port but is never invoked by the tool (no rollback). -/
inductive DocStep where
  | driveCreate (title : String)
  | batchUpdate (documentId : String) (text : String)
  | driveDelete (fileId : String)
deriving DecidableEq, Repr

/-- Embedding of the google-docs `create_document` tool (google-docs.py lines
82-127): create the file via Drive; then, only when `content` is truthy
(non-empty), obtain the Docs service again and issue a `batchUpdate`
inserting the content at index 1. Any raised failure is caught at the tool
boundary. The result pairs the returned envelope with the ordered trace of
backend calls made. -/
def create_document (title content : String)
    (credsDrive : Except String Unit)
    (driveCreate : String → Except String String)
    (credsDocs : Except String Unit)
    (batchUpdate : String → String → Except String Unit) :
    List (String × JVal) × List DocStep :=
  match credsDrive with
  | .error e => ([("success", JVal.jbool false), ("error", JVal.jstr e)], [])
  | .ok _ =>
      match driveCreate title with
      | .error e =>
          ([("success", JVal.jbool false), ("error", JVal.jstr e)],
           [DocStep.driveCreate title])
      | .ok fileId =>
          if content.isEmpty then
            ([("success", JVal.jbool true),
              ("document_id", JVal.jstr fileId), ("title", JVal.jstr title),
              ("message", JVal.jstr "Document created successfully")],
             [DocStep.driveCreate title])
          else
            match credsDocs with
            | .error e =>
                ([("success", JVal.jbool false), ("error", JVal.jstr e)],
                 [DocStep.driveCreate title])
            | .ok _ =>
                match batchUpdate fileId content with
                | .error e =>
                    ([("success", JVal.jbool false), ("error", JVal.jstr e)],
                     [DocStep.driveCreate title,
                      DocStep.batchUpdate fileId content])
                | .ok _ =>
                    ([("success", JVal.jbool true),
                      ("document_id", JVal.jstr fileId),
                      ("title", JVal.jstr title),
                      ("message", JVal.jstr "Document created successfully")],
                     [DocStep.driveCreate title,
                      DocStep.batchUpdate fileId content])

end GoogleDocs

namespace TreeStore

/-- An item of the data stored under a tree-store path: a child key and its
record of named integer fields. -/
structure TreeItem where
  key : String
  fields : List (String × Int)
deriving DecidableEq, Repr

/-- Value of the order-by field of an item (absent fields order as 0). -/
def fieldVal (orderBy : String) (it : TreeItem) : Int :=
  (it.fields.lookup orderBy).getD 0

/-- Modelled from the spec: the repository's source contains no tree-store
(realtime database) query tool; the spec's dispatch table lists the
tree-store `query` operation taking a path, an optional order-by field and an
optional result limit, returning filtered/limited data, and states that
"Query operations apply ordering before limiting when both are requested."
The items under the queried path are sorted by the order-by field and the
limit is then applied to the ordered result. -/
def tree_query (items : List TreeItem) (orderBy : String)
    (limit : Option Nat) : List TreeItem :=
  let ordered :=
    items.mergeSort fun a b => decide (fieldVal orderBy a ≤ fieldVal orderBy b)
  match limit with
  | some n => ordered.take n
  | none => ordered

end TreeStore

namespace Firebase

/-- Stored state of a user in the external identity backend, for stating
frame conditions about updates. -/
structure UserState where
  email : Option String
  display_name : Option String
  password : Option String
deriving DecidableEq, Repr

/-- Modelled behavior of the external identity port's update operation (per
the spec's Backend Port interfaces, §6): each field of the stored user is
overwritten exactly when the forwarded parameter dictionary carries the
corresponding key, and kept otherwise. -/
def applyUpdateParams (params : List (String × String)) (u : UserState) :
    UserState :=
  { email :=
      match params.lookup "email" with
      | some e => some e
      | none => u.email,
    display_name :=
      match params.lookup "display_name" with
      | some d => some d
      | none => u.display_name,
    password :=
      match params.lookup "password" with
      | some p => some p
      | none => u.password }

end Firebase

/-- C1: for every tool of both servers and every possible backend outcome
(normal completion with any result value, or a raised failure with any
message — covering not-found, permission, network and argument-rejection
failures alike), the returned dictionary is a well-formed envelope: exactly
one of success payload / error message is populated and the success flag is
consistent with which one it is. The tool functions are total, so no raised
backend failure propagates past the tool boundary. -/
theorem all_tools_return_wellformed_envelope :
    (∀ em pw b, wellFormedEnvelope (Firebase.create_user em pw b) = true) ∧
    (∀ b, wellFormedEnvelope (Firebase.get_users b) = true) ∧
    (∀ uid b, wellFormedEnvelope (Firebase.get_user uid b) = true) ∧
    (∀ uid b, wellFormedEnvelope (Firebase.delete_user uid b) = true) ∧
    (∀ uid em dn pw b,
      wellFormedEnvelope (Firebase.update_user uid em dn pw b) = true) ∧
    (∀ uid au g1 g2,
      wellFormedEnvelope (Firebase.verify_email uid au g1 g2) = true) ∧
    (∀ em au g, wellFormedEnvelope (Firebase.reset_password em au g) = true) ∧
    (∀ b, wellFormedEnvelope (Firebase.get_collections b) = true) ∧
    (∀ cid b, wellFormedEnvelope (Firebase.get_documents cid b) = true) ∧
    (∀ cid did b, wellFormedEnvelope (Firebase.get_document cid did b) = true) ∧
    (∀ cid did d b,
      wellFormedEnvelope (Firebase.create_document cid did d b) = true) ∧
    (∀ cid did d b,
      wellFormedEnvelope (Firebase.update_document cid did d b) = true) ∧
    (∀ cid did b,
      wellFormedEnvelope (Firebase.delete_document cid did b) = true) ∧
    (∀ did c f, wellFormedEnvelope (GoogleDocs.get_document did c f) = true) ∧
    (∀ t ct c1 dc c2 bu,
      wellFormedEnvelope (GoogleDocs.create_document t ct c1 dc c2 bu).1 = true) := by
  refine ⟨?_, ?_, ?_, ?_, ?_, ?_, ?_, ?_, ?_, ?_, ?_, ?_, ?_, ?_, ?_⟩ <;> intros
  · unfold Firebase.create_user
    repeat' split
    all_goals rfl
  · unfold Firebase.get_users
    repeat' split
    all_goals rfl
  · unfold Firebase.get_user
    repeat' split
    all_goals rfl
  · unfold Firebase.delete_user
    repeat' split
    all_goals rfl
  · unfold Firebase.update_user
    repeat' split
    all_goals rfl
  · unfold Firebase.verify_email
    repeat' split
    all_goals rfl
  · unfold Firebase.reset_password
    repeat' split
    all_goals rfl
  · unfold Firebase.get_collections
    repeat' split
    all_goals rfl
  · unfold Firebase.get_documents
    repeat' split
    all_goals rfl
  · unfold Firebase.get_document
    repeat' split
    all_goals rfl
  · unfold Firebase.create_document
    repeat' split
    all_goals rfl
  · unfold Firebase.update_document
    repeat' split
    all_goals rfl
  · unfold Firebase.delete_document
    repeat' split
    all_goals rfl
  · unfold GoogleDocs.get_document
    repeat' split
    all_goals rfl
  · unfold GoogleDocs.create_document
    repeat' split
    all_goals rfl

/-- C2: whenever `get_credentials` returns (rather than raising), the
returned credential record is valid at the current time — its access token
is present and its expiry lies in the future — under the assumption that a
successful silent refresh and a successful interactive flow each yield a
credential valid at the current time (the authorization server issues fresh
grants). In particular an expired, non-refreshable credential is never
returned. -/
theorem get_credentials_returns_valid (now : Nat)
    (stored : Option GoogleDocs.Creds)
    (refreshCall : GoogleDocs.Creds → Except String GoogleDocs.Creds)
    (flowCall : Except String GoogleDocs.Creds)
    (hr : ∀ c c', refreshCall c = .ok c' → c'.validAt now = true)
    (hf : ∀ c', flowCall = .ok c' → c'.validAt now = true)
    (c : GoogleDocs.Creds)
    (hres : (GoogleDocs.get_credentials now stored refreshCall flowCall).1 = .ok c) :
    c.validAt now = true := by
  rcases stored with _ | c0
  · cases hflow : flowCall with
    | ok c' =>
        simp [GoogleDocs.get_credentials, hflow] at hres
        exact hres ▸ hf _ hflow
    | error e =>
        simp [GoogleDocs.get_credentials, hflow] at hres
  · by_cases hv : c0.validAt now = true
    · simp [GoogleDocs.get_credentials, hv] at hres
      exact hres ▸ hv
    · by_cases hc : (c0.expiredAt now && c0.refresh_token.isSome) = true
      · cases hrc : refreshCall c0 with
        | ok c' =>
            simp [GoogleDocs.get_credentials, hv, hc, hrc] at hres
            exact hres ▸ hr _ _ hrc
        | error e =>
            simp [GoogleDocs.get_credentials, hv, hc, hrc] at hres
      · cases hflow : flowCall with
        | ok c' =>
            simp [GoogleDocs.get_credentials, hv, hc, hflow] at hres
            exact hres ▸ hf _ hflow
        | error e =>
            simp [GoogleDocs.get_credentials, hv, hc, hflow] at hres

/-- Witness for C2 at a concrete input: a stored valid credential is
returned as-is and is valid at time 10. -/
theorem get_credentials_returns_valid_witness :
    GoogleDocs.Creds.validAt
      { token := some "tok", expiry := some 20, refresh_token := none } 10 = true :=
  get_credentials_returns_valid 10
    (some { token := some "tok", expiry := some 20, refresh_token := none })
    (fun _ => Except.error "refresh unavailable")
    (Except.error "flow unavailable")
    (fun _ _ h => nomatch h) (fun _ h => nomatch h)
    { token := some "tok", expiry := some 20, refresh_token := none } rfl

/-- C3 counterexample: at time 100, with a stored record that is expired
(expiry 50) and holds a refresh token, and a refresh call that fails while
the interactive flow would succeed, `get_credentials` surfaces the refresh
failure directly and never runs the interactive flow — contradicting the
claimed fall-through to the interactive authorization flow. -/
theorem refresh_failure_no_flow_fallthrough :
    GoogleDocs.get_credentials 100
        (some { token := some "tok", expiry := some 50, refresh_token := some "r" })
        (fun _ => Except.error "refresh failed")
        (Except.ok { token := some "new", expiry := some 900, refresh_token := some "r" }) =
      (Except.error "refresh failed", [GoogleDocs.AcqStep.refreshCall]) ∧
    GoogleDocs.AcqStep.runFlow ∉ [GoogleDocs.AcqStep.refreshCall] := by
  constructor
  · rfl
  · decide

/-- C3 (amended): when the stored credential record is expired and holds a
refresh token, a silent refresh is attempted; if that silent refresh fails,
the failure propagates out of `get_credentials` (it is surfaced, reaching the
calling tool's envelope boundary) and the interactive authorization flow is
not attempted — `get_credentials` does not fall through to it. -/
theorem refresh_failure_propagates (now : Nat) (c : GoogleDocs.Creds)
    (refreshCall : GoogleDocs.Creds → Except String GoogleDocs.Creds)
    (flowCall : Except String GoogleDocs.Creds) (e : String)
    (hexp : c.expiredAt now = true) (hrt : c.refresh_token.isSome = true)
    (hrc : refreshCall c = .error e) :
    GoogleDocs.get_credentials now (some c) refreshCall flowCall =
      (Except.error e, [GoogleDocs.AcqStep.refreshCall]) := by
  have hv : c.validAt now = false := by
    unfold GoogleDocs.Creds.validAt
    rw [hexp]
    simp
  simp [GoogleDocs.get_credentials, hv, hexp, hrt, hrc]

/-- Witness for the amended C3 at a concrete input. -/
theorem refresh_failure_propagates_witness :
    GoogleDocs.get_credentials 100
        (some { token := some "tok", expiry := some 50, refresh_token := some "r" })
        (fun _ => Except.error "boom") (Except.error "flow unavailable") =
      (Except.error "boom", [GoogleDocs.AcqStep.refreshCall]) :=
  refresh_failure_propagates 100
    { token := some "tok", expiry := some 50, refresh_token := some "r" }
    (fun _ => Except.error "boom") (Except.error "flow unavailable") "boom"
    (by decide) (by decide) rfl

/-- C7: `get_credentials` writes the token file exactly when a credential is
created or refreshed, never on the valid-cached path. First conjunct: when
the stored record is valid, the call returns it unchanged with an empty
side-effect trace, so the persisted store is untouched and a second
consecutive call behaves identically — the two calls together perform zero
writes. Second conjunct: every acquisition that returns a credential
performs exactly one write when it came from a refresh or from the
interactive flow (stored record absent or not valid), and zero writes when
the stored record was valid. -/
theorem credential_writes_only_on_create_or_refresh (now : Nat)
    (stored : Option GoogleDocs.Creds)
    (refreshCall : GoogleDocs.Creds → Except String GoogleDocs.Creds)
    (flowCall : Except String GoogleDocs.Creds) :
    (∀ c, stored = some c → c.validAt now = true →
      GoogleDocs.get_credentials now stored refreshCall flowCall = (Except.ok c, []) ∧
      GoogleDocs.countWrites
          (GoogleDocs.get_credentials now stored refreshCall flowCall).2 +
        GoogleDocs.countWrites
          (GoogleDocs.get_credentials now (some c) refreshCall flowCall).2 = 0) ∧
    (∀ c' tr,
      GoogleDocs.get_credentials now stored refreshCall flowCall = (Except.ok c', tr) →
      GoogleDocs.countWrites tr =
        (match stored with
         | some c => if c.validAt now then 0 else 1
         | none => 1)) := by
  constructor
  · intro c hs hv
    subst hs
    simp [GoogleDocs.get_credentials, hv, GoogleDocs.countWrites]
  · intro c' tr h
    rcases stored with _ | c0
    · cases hflow : flowCall with
      | ok c'' =>
          simp [GoogleDocs.get_credentials, hflow] at h
          simp [← h.2, GoogleDocs.countWrites]
      | error e =>
          simp [GoogleDocs.get_credentials, hflow] at h
    · by_cases hv : c0.validAt now = true
      · simp [GoogleDocs.get_credentials, hv] at h
        rcases h with ⟨h1, h2⟩
        subst h2
        simp [GoogleDocs.countWrites, hv]
      · by_cases hc : (c0.expiredAt now && c0.refresh_token.isSome) = true
        · cases hrc : refreshCall c0 with
          | ok c'' =>
              simp [GoogleDocs.get_credentials, hv, hc, hrc] at h
              simp [← h.2, GoogleDocs.countWrites, hv]
          | error e =>
              simp [GoogleDocs.get_credentials, hv, hc, hrc] at h
        · cases hflow : flowCall with
          | ok c'' =>
              simp [GoogleDocs.get_credentials, hv, hc, hflow] at h
              simp [← h.2, GoogleDocs.countWrites, hv]
          | error e =>
              simp [GoogleDocs.get_credentials, hv, hc, hflow] at h

/-- Witness for C7 at a concrete input: with a valid cached credential the
call is a pure read returning the cached record with an empty trace, and two
consecutive acquisitions perform zero writes in total. -/
theorem credential_writes_only_on_create_or_refresh_witness :
    GoogleDocs.get_credentials 10
        (some { token := some "tok", expiry := some 20, refresh_token := none })
        (fun _ => Except.error "refresh unavailable") (Except.error "flow unavailable") =
      (Except.ok { token := some "tok", expiry := some 20, refresh_token := none }, []) ∧
    GoogleDocs.countWrites
        (GoogleDocs.get_credentials 10
          (some { token := some "tok", expiry := some 20, refresh_token := none })
          (fun _ => Except.error "refresh unavailable")
          (Except.error "flow unavailable")).2 +
      GoogleDocs.countWrites
        (GoogleDocs.get_credentials 10
          (some { token := some "tok", expiry := some 20, refresh_token := none })
          (fun _ => Except.error "refresh unavailable")
          (Except.error "flow unavailable")).2 = 0 :=
  (credential_writes_only_on_create_or_refresh 10
      (some { token := some "tok", expiry := some 20, refresh_token := none })
      (fun _ => Except.error "refresh unavailable")
      (Except.error "flow unavailable")).1
    { token := some "tok", expiry := some 20, refresh_token := none } rfl (by decide)

/-- C4 counterexample: for the `get_collections` tool a backend failure with
message "boom" produces the error field "Failed to get collections: boom",
which differs from the failure's message — the message is not forwarded
as-is for every tool. -/
theorem get_collections_error_not_verbatim :
    errorField (Firebase.get_collections (Except.error "boom")) =
      some (JVal.jstr "Failed to get collections: boom") ∧
    "Failed to get collections: boom" ≠ "boom" := by
  constructor
  · rfl
  · decide

/-- C4 (amended): for every backend-call failure caught at a tool boundary,
every tool except `get_collections` and `get_documents` places the failure's
message into the error field as-is, with nothing prepended or appended;
`get_collections` prepends the fixed text "Failed to get collections: " and
`get_documents` prepends "Failed to get documents from collection
{collection_id}: " to the message. -/
theorem backend_error_messages_forwarding :
    (∀ em pw e,
      errorField (Firebase.create_user em pw (Except.error e)) = some (JVal.jstr e)) ∧
    (∀ e, errorField (Firebase.get_users (Except.error e)) = some (JVal.jstr e)) ∧
    (∀ uid e,
      errorField (Firebase.get_user uid (Except.error e)) = some (JVal.jstr e)) ∧
    (∀ uid e,
      errorField (Firebase.delete_user uid (Except.error e)) = some (JVal.jstr e)) ∧
    (∀ uid em dn pw b e, b (Firebase.buildUpdateParams em dn pw) = Except.error e →
      errorField (Firebase.update_user uid em dn pw b) = some (JVal.jstr e)) ∧
    (∀ uid au g e,
      errorField (Firebase.verify_email uid au (Except.error e) g) = some (JVal.jstr e)) ∧
    (∀ uid au u g e, g u.email (Firebase.truthyOpt au) = Except.error e →
      errorField (Firebase.verify_email uid au (Except.ok u) g) = some (JVal.jstr e)) ∧
    (∀ em au g e, g (Firebase.truthyOpt au) = Except.error e →
      errorField (Firebase.reset_password em au g) = some (JVal.jstr e)) ∧
    (∀ e, errorField (Firebase.get_collections (Except.error e)) =
      some (JVal.jstr ("Failed to get collections: " ++ e))) ∧
    (∀ cid e, errorField (Firebase.get_documents cid (Except.error e)) =
      some (JVal.jstr ("Failed to get documents from collection " ++ cid ++ ": " ++ e))) ∧
    (∀ cid did e,
      errorField (Firebase.get_document cid did (Except.error e)) = some (JVal.jstr e)) ∧
    (∀ cid did d e,
      errorField (Firebase.create_document cid did d (Except.error e)) = some (JVal.jstr e)) ∧
    (∀ cid did d e,
      errorField (Firebase.update_document cid did d (Except.error e)) = some (JVal.jstr e)) ∧
    (∀ cid did e,
      errorField (Firebase.delete_document cid did (Except.error e)) = some (JVal.jstr e)) ∧
    (∀ did e f,
      errorField (GoogleDocs.get_document did (Except.error e) f) = some (JVal.jstr e)) ∧
    (∀ did e,
      errorField (GoogleDocs.get_document did (Except.ok ()) (Except.error e)) =
        some (JVal.jstr e)) ∧
    (∀ t ct dc c2 bu e,
      errorField (GoogleDocs.create_document t ct (Except.error e) dc c2 bu).1 =
        some (JVal.jstr e)) ∧
    (∀ t ct dc c2 bu e, dc t = Except.error e →
      errorField (GoogleDocs.create_document t ct (Except.ok ()) dc c2 bu).1 =
        some (JVal.jstr e)) ∧
    (∀ t ct dc bu e fid, ct.isEmpty = false → dc t = Except.ok fid →
      errorField (GoogleDocs.create_document t ct (Except.ok ()) dc (Except.error e) bu).1 =
        some (JVal.jstr e)) ∧
    (∀ t ct dc bu e fid, ct.isEmpty = false → dc t = Except.ok fid →
      bu fid ct = Except.error e →
      errorField (GoogleDocs.create_document t ct (Except.ok ()) dc (Except.ok ()) bu).1 =
        some (JVal.jstr e)) := by
  refine ⟨fun em pw e => rfl, fun e => rfl, fun uid e => rfl, fun uid e => rfl,
    ?_, fun uid au g e => rfl, ?_, ?_, fun e => rfl, fun cid e => rfl,
    fun cid did e => rfl, fun cid did d e => rfl, fun cid did d e => rfl,
    fun cid did e => rfl, fun did e f => rfl, fun did e => rfl,
    fun t ct dc c2 bu e => rfl, ?_, ?_, ?_⟩
  · intro uid em dn pw b e h
    unfold Firebase.update_user
    simp only [h]
    rfl
  · intro uid au u g e h
    unfold Firebase.verify_email
    simp only [h]
    rfl
  · intro em au g e h
    unfold Firebase.reset_password
    simp only [h]
    rfl
  · intro t ct dc c2 bu e h
    unfold GoogleDocs.create_document
    simp only [h]
    rfl
  · intro t ct dc bu e fid hct hdc
    unfold GoogleDocs.create_document
    simp only [hct, hdc]
    rfl
  · intro t ct dc bu e fid hct hdc hbu
    unfold GoogleDocs.create_document
    simp only [hct, hdc, hbu]
    rfl

/-- Witness for the amended C4 at concrete inputs: a failing identity-update
backend call and a failing batch-update call each have their message
forwarded verbatim. -/
theorem backend_error_messages_forwarding_witness :
    errorField (Firebase.update_user "u1" none (some "Dana") none
        (fun _ => Except.error "update rejected")) =
      some (JVal.jstr "update rejected") ∧
    errorField (GoogleDocs.create_document "T" "hello" (Except.ok ())
        (fun _ => Except.ok "f1") (Except.ok ())
        (fun _ _ => Except.error "insert failed")).1 =
      some (JVal.jstr "insert failed") :=
  ⟨backend_error_messages_forwarding.2.2.2.2.1 "u1" none (some "Dana") none
      (fun _ => Except.error "update rejected") "update rejected" rfl,
   (backend_error_messages_forwarding.2.2.2.2.2.2.2.2.2.2.2.2.2.2.2.2.2.2.2)
      "T" "hello" (fun _ => Except.ok "f1") (fun _ _ => Except.error "insert failed")
      "insert failed" "f1" rfl rfl rfl⟩

/-- C5: when the Firestore lookup succeeds but the document does not exist
(`doc.exists` false, whatever `to_dict` would have held), `get_document`
returns a success envelope with a null data payload, not an error
envelope. -/
theorem get_document_not_found_is_success_null (cid did : String)
    (d : List (String × JVal)) :
    Firebase.get_document cid did (Except.ok { exists_ := false, data := d }) =
      [("success", JVal.jbool true), ("data", JVal.null)] := rfl

/-- C6: `update_user` forwards exactly the supplied optional arguments —
each of the keys `email`, `display_name`, `password` appears in the
forwarded parameter dictionary iff the corresponding argument was supplied,
with its supplied value; with only `display_name` supplied the forwarded
dictionary is exactly `{display_name: d}`, and applying it to any stored
user state changes the display name and leaves the stored email and password
unchanged. -/
theorem update_user_forwards_only_supplied_fields :
    (∀ em dn pw,
      (Firebase.buildUpdateParams em dn pw).lookup "email" = em ∧
      (Firebase.buildUpdateParams em dn pw).lookup "display_name" = dn ∧
      (Firebase.buildUpdateParams em dn pw).lookup "password" = pw) ∧
    (∀ dn, Firebase.buildUpdateParams none (some dn) none = [("display_name", dn)]) ∧
    (∀ dn u,
      Firebase.applyUpdateParams (Firebase.buildUpdateParams none (some dn) none) u =
        { email := u.email, display_name := some dn, password := u.password }) := by
  refine ⟨?_, fun dn => rfl, fun dn u => rfl⟩
  intro em dn pw
  rcases em with _ | e <;> rcases dn with _ | d <;> rcases pw with _ | p <;>
    exact ⟨rfl, rfl, rfl⟩

/-- C8: when content is provided, `create_document` performs the Drive file
creation and then the Docs content insertion, in that order; when the
insertion fails after the creation succeeded, the tool returns an error
envelope carrying the surfaced failure message, and the trace contains no
Drive deletion — the created file is left in place, with no compensating
rollback. -/
theorem create_document_insert_failure_no_rollback
    (title content fid e : String)
    (dcF : String → Except String String)
    (bu : String → String → Except String Unit)
    (hct : content.isEmpty = false)
    (hdc : dcF title = Except.ok fid)
    (hbu : bu fid content = Except.error e) :
    GoogleDocs.create_document title content (Except.ok ()) dcF (Except.ok ()) bu =
      ([("success", JVal.jbool false), ("error", JVal.jstr e)],
       [GoogleDocs.DocStep.driveCreate title,
        GoogleDocs.DocStep.batchUpdate fid content]) ∧
    ∀ x, GoogleDocs.DocStep.driveDelete x ∉
      (GoogleDocs.create_document title content (Except.ok ()) dcF (Except.ok ()) bu).2 := by
  have h1 : GoogleDocs.create_document title content (Except.ok ()) dcF (Except.ok ()) bu =
      ([("success", JVal.jbool false), ("error", JVal.jstr e)],
       [GoogleDocs.DocStep.driveCreate title,
        GoogleDocs.DocStep.batchUpdate fid content]) := by
    unfold GoogleDocs.create_document
    simp only [hct, hdc, hbu]
    rfl
  refine ⟨h1, ?_⟩
  intro x
  rw [h1]
  simp

/-- Witness for C8 at a concrete input: a failing insertion after a
successful creation yields the error envelope with that failure's message
and a trace of exactly the two calls. -/
theorem create_document_insert_failure_no_rollback_witness :
    GoogleDocs.create_document "T" "hello" (Except.ok ()) (fun _ => Except.ok "f1")
        (Except.ok ()) (fun _ _ => Except.error "insert failed") =
      ([("success", JVal.jbool false), ("error", JVal.jstr "insert failed")],
       [GoogleDocs.DocStep.driveCreate "T",
        GoogleDocs.DocStep.batchUpdate "f1" "hello"]) :=
  (create_document_insert_failure_no_rollback "T" "hello" "f1" "insert failed"
      (fun _ => Except.ok "f1") (fun _ _ => Except.error "insert failed")
      (by decide) rfl rfl).1

/-- C10: with empty content (the declared default, so also when the argument
is omitted), `create_document` issues only the single Drive file-creation
call — the trace holds no batch update, whatever the Docs-service
credential acquisition or batch call would have done — and returns a
success envelope carrying the new document id and the given title. -/
theorem create_document_empty_content_single_call (title fid : String)
    (dcF : String → Except String String) (c2 : Except String Unit)
    (bu : String → String → Except String Unit)
    (hdc : dcF title = Except.ok fid) :
    GoogleDocs.create_document title "" (Except.ok ()) dcF c2 bu =
      ([("success", JVal.jbool true), ("document_id", JVal.jstr fid),
        ("title", JVal.jstr title),
        ("message", JVal.jstr "Document created successfully")],
       [GoogleDocs.DocStep.driveCreate title]) := by
  unfold GoogleDocs.create_document
  simp only [hdc]
  rfl

/-- Witness for C10 at a concrete input: even with a Docs service that would
fail, empty content means only the Drive creation happens and the call
succeeds. -/
theorem create_document_empty_content_single_call_witness :
    GoogleDocs.create_document "T" "" (Except.ok ()) (fun _ => Except.ok "f1")
        (Except.error "docs service unavailable")
        (fun _ _ => Except.error "never called") =
      ([("success", JVal.jbool true), ("document_id", JVal.jstr "f1"),
        ("title", JVal.jstr "T"),
        ("message", JVal.jstr "Document created successfully")],
       [GoogleDocs.DocStep.driveCreate "T"]) :=
  create_document_empty_content_single_call "T" "f1" (fun _ => Except.ok "f1")
    (Except.error "docs service unavailable") (fun _ _ => Except.error "never called") rfl

/-- C9: a tree-store query supplying both an order-by field and a result
limit N returns the first N items of the ordered result: there is a
reordering of the items under the queried path that is sorted by the
order-by field, and the query's result is exactly its first N items —
ordering is applied before limiting. -/
theorem tree_query_orders_before_limiting (items : List TreeStore.TreeItem)
    (orderBy : String) (n : Nat) :
    ∃ ordered, List.Perm ordered items ∧
      List.Pairwise
        (fun a b => TreeStore.fieldVal orderBy a ≤ TreeStore.fieldVal orderBy b)
        ordered ∧
      TreeStore.tree_query items orderBy (some n) = ordered.take n := by
  refine ⟨items.mergeSort
    (fun a b => decide (TreeStore.fieldVal orderBy a ≤ TreeStore.fieldVal orderBy b)),
    ?_, ?_, rfl⟩
  · exact List.mergeSort_perm items _
  · have h := @List.sorted_mergeSort _
      (fun a b => decide (TreeStore.fieldVal orderBy a ≤ TreeStore.fieldVal orderBy b))
      (fun a b c hab hbc => by
        simp only [decide_eq_true_eq] at hab hbc ⊢
        exact le_trans hab hbc)
      (fun a b => by
        rcases le_total (TreeStore.fieldVal orderBy a) (TreeStore.fieldVal orderBy b) with
          h | h <;> simp [h])
      items
    exact h.imp fun hab => of_decide_eq_true hab
